import Mathlib

/-!
Shallow embedding of the voice-assistant memory/action engine
(`src/voice_assistant/app.py`): the tiered MemoryStore, the
confirmation/action state machine (`handle_action`), the retention sweeper
(`clean_memory`), the contextual-view recomputation
(`update_contextual_memory`) and one tick of the reminder scheduler
(`check_reminders`).

Timestamps are modelled as integers counting seconds (the source stores
"YYYY-MM-DD HH:MM:SS" strings, whose lexicographic order and equality agree
with the order and equality of the instants they denote, and compares parsed
`datetime` values elsewhere).  Python's `timedelta.days` is floor division of
the second difference by 86400 (`Int.fdiv`).  Python string operations
(`lower`, `strip`, `split`, the `in` substring test) are modelled on ASCII
content.
-/

set_option maxRecDepth 10000

namespace VoiceAssistant

/-! ### Python string helpers -/

/-- Python `str.lower` (ASCII model). -/
def pyLower (s : String) : String := ⟨s.data.map Char.toLower⟩

/-- Python `str.strip` (leading/trailing whitespace removal). -/
def pyStrip (s : String) : String :=
  ⟨((s.data.dropWhile Char.isWhitespace).reverse.dropWhile Char.isWhitespace).reverse⟩

/-- `sub` is a prefix of the second list. -/
def isPre : List Char → List Char → Bool
  | [], _ => true
  | _ :: _, [] => false
  | a :: as, b :: bs => a == b && isPre as bs

/-- `sub` occurs as a contiguous sublist. -/
def isSubOf (sub : List Char) : List Char → Bool
  | [] => sub.isEmpty
  | c :: rest => isPre sub (c :: rest) || isSubOf sub rest

/-- Python `sub in s` substring test. -/
def pyContains (sub s : String) : Bool := isSubOf sub.data s.data

/-- The affirmative test of `handle_action`: `"yes" in original_text.lower()`. -/
def containsYes (text : String) : Bool := pyContains ("yes") (pyLower text)

/-- Worker for `pySplit`; `acc` holds the current word reversed. -/
def pySplitAux (acc : List Char) : List Char → List String
  | [] => if acc.isEmpty then [] else [⟨acc.reverse⟩]
  | c :: rest =>
    if c.isWhitespace then
      if acc.isEmpty then pySplitAux [] rest
      else (⟨acc.reverse⟩ : String) :: pySplitAux [] rest
    else pySplitAux (c :: acc) rest

/-- Python `str.split()`: split on whitespace runs, dropping empties. -/
def pySplit (s : String) : List String := pySplitAux [] s.data

/-- Python `l[-n:]`: the last `n` elements. -/
def lastN (n : Nat) (l : List α) : List α := l.drop (l.length - n)

/-! ### Data model (§3 of the spec, `memory` dict of the source) -/

/-- Reminder status; the source stores the strings "active"/"completed". -/
inductive RStatus where
  | active
  | completed
deriving DecidableEq

structure Reminder where
  message : String
  datetime : Int
  created_at : Int
  status : RStatus
  completed_at : Option Int := none
deriving DecidableEq

structure Event where
  description : String
  datetime : Int
  created_at : Int
deriving DecidableEq

structure Fact where
  content : String
  category : String
  timestamp : Int
deriving DecidableEq

structure Conversation where
  text : String
  action : String
  timestamp : Int
deriving DecidableEq

structure LongTerm where
  facts : List Fact
  preferences : List (String × String)
  events : List Event
  reminders : List Reminder
  conversations : List Conversation
deriving DecidableEq

structure Contextual where
  recent_conversations : List Conversation
  active_context : List Fact
  relevant_facts : List Fact
  upcoming_events : List Event
  active_reminders : List Reminder
deriving DecidableEq

structure Memory where
  long_term : LongTerm
  contextual : Contextual
deriving DecidableEq

/-- Memory-management constants of the source. -/
def CONTEXT_WINDOW_DAYS : Int := 7

def LONG_TERM_WINDOW_DAYS : Int := 365

def MAX_CONTEXT_CONVERSATIONS : Nat := 50

def MAX_ACTIVE_CONTEXT : Nat := 10

/-! ### `update_contextual_memory` (source lines 1079-1116) -/

def update_contextual_memory (now : Int) (m : Memory) : Memory :=
  let lt := m.long_term
  let recent := lastN MAX_CONTEXT_CONVERSATIONS
    (lt.conversations.filter (fun c =>
      decide (Int.fdiv (now - c.timestamp) 86400 ≤ CONTEXT_WINDOW_DAYS)))
  let upcoming := lt.events.filter (fun e => decide (e.datetime - now ≤ 86400))
  let activeRs := lt.reminders.filter (fun r => decide (r.status = RStatus.active))
  let recentTopics : List String :=
    (lastN 5 recent).foldr (fun c acc => pySplit (pyLower c.text) ++ acc) []
  let relevant := (lt.facts.filter (fun f =>
    recentTopics.any (fun t => pyContains t (pyLower f.content)))).take MAX_ACTIVE_CONTEXT
  { m with contextual := { m.contextual with
      recent_conversations := recent
      relevant_facts := relevant
      upcoming_events := upcoming
      active_reminders := activeRs } }

/-! ### `clean_memory` (source lines 623-668) -/

/-- The fact-dedup loop of `clean_memory`: keep the first occurrence of each
normalized (`lower().strip()`) content. -/
def dedupFactsAux (seen : List String) : List Fact → List Fact
  | [] => []
  | f :: rest =>
    let c := pyStrip (pyLower f.content)
    if c ∈ seen then dedupFactsAux seen rest
    else f :: dedupFactsAux (c :: seen) rest

def clean_memory (now : Int) (m : Memory) : Memory :=
  let lt := m.long_term
  let reminders := lt.reminders.filter (fun r =>
    decide (r.status = RStatus.active) ||
    (match r.completed_at with
     | some t => decide (Int.fdiv (now - t) 86400 < LONG_TERM_WINDOW_DAYS)
     | none => false))
  let events := lt.events.filter (fun e =>
    decide (Int.fdiv (now - e.datetime) 86400 < LONG_TERM_WINDOW_DAYS))
  let facts := lt.facts.filter (fun f =>
    decide (Int.fdiv (now - f.timestamp) 86400 < LONG_TERM_WINDOW_DAYS))
  let conversations := lt.conversations.filter (fun c =>
    decide (Int.fdiv (now - c.timestamp) 86400 < LONG_TERM_WINDOW_DAYS))
  let facts := dedupFactsAux [] facts
  update_contextual_memory now
    { m with long_term := { lt with
        reminders := reminders
        events := events
        facts := facts
        conversations := conversations } }

/-! ### `clear_all_memory` (source lines 670-682) and `clear_reminders`
(source lines 608-621) -/

def clear_all_memory (m : Memory) : Memory :=
  { m with long_term :=
      { facts := []
        preferences := []
        events := []
        reminders := []
        conversations := [] } }

/-- Returns the updated memory and whether any active reminder existed
(which selects the response message in the source). -/
def clear_reminders (now : Int) (m : Memory) : Memory × Bool :=
  let lt := m.long_term
  if lt.reminders.any (fun r => decide (r.status = RStatus.active)) then
    let reminders := lt.reminders.map (fun r =>
      if r.status = RStatus.active then
        { r with status := RStatus.completed, completed_at := some now }
      else r)
    ({ m with long_term := { lt with reminders := reminders } }, true)
  else (m, false)

/-! ### The action-intent wire objects -/

/-- The `data` sub-dict of an action intent; every field optional, as keys
of a Python dict.  `dtype` models the key "type". -/
structure DataDict where
  message : Option String := none
  suggested_time : Option Int := none
  dtype : Option String := none
  needs_confirmation : Option Bool := none
  confirmation_message : Option String := none
  content : Option String := none
  category : Option String := none
  response : Option String := none
deriving DecidableEq

/-- The parsed action intent dict (`action` is checked present by the caller
before `handle_action` runs; all other keys optional). -/
structure ActionData where
  action : String
  message : Option String := none
  needs_confirmation : Option Bool := none
  data : Option DataDict := none
  confirmation_message : Option String := none
  content : Option String := none
  category : Option String := none
  response : Option String := none
deriving DecidableEq

/-- State touched by `handle_action`: the memory dict and the
`pending_action` global. -/
structure AppState where
  memory : Memory
  pending_action : Option ActionData
deriving DecidableEq

/-- Which return site of `handle_action` was taken. -/
inductive HOutcome where
  /-- the confirmation branch (pending action present and "yes" in the
  lowered utterance) ran to its `return` -/
  | confirmBranch
  /-- `read_back_reminders` return -/
  | readBack
  /-- `clear_reminders` with no active reminder: informative message -/
  | noActive
  /-- a confirmation prompt was issued and the pending action stored -/
  | pendingStored
  /-- `clear_reminders` executed without confirmation -/
  | clearedReminders
  /-- `clear_all_memory` executed without confirmation -/
  | clearedAll
  /-- duplicate reminder/event: ask-to-update prompt, no insertion -/
  | dupPrompt
  /-- duplicate fact: already-known prompt, no insertion -/
  | alreadyKnown
  /-- missing required field: logged, aborted -/
  | aborted
  /-- an uncaught KeyError reached the outer exception handler -/
  | exn
  /-- fell through to `clean_memory` at the end of the function -/
  | completed
deriving DecidableEq

/-! ### `handle_action` (source lines 684-969) -/

/-- The new-intent part of `handle_action` (source lines 759-964), reached
when no pending action is confirmed; `m2` already holds the appended
conversation record and refreshed contextual view, `pending` the unchanged
`pending_action` global. -/
def handle_new_action (a : ActionData) (now : Int) (m2 : Memory)
    (pending : Option ActionData) : AppState × HOutcome :=
  if a.action = "read_back_reminders" then
    ({ memory := m2, pending_action := pending }, HOutcome.readBack)
  else if a.action = "clear_reminders" then
    if m2.long_term.reminders.any (fun r => decide (r.status = RStatus.active)) then
      if a.needs_confirmation.getD false then
        ({ memory := m2, pending_action := some a }, HOutcome.pendingStored)
      else
        ({ memory := (clear_reminders now m2).1, pending_action := pending },
          HOutcome.clearedReminders)
    else
      ({ memory := m2, pending_action := pending }, HOutcome.noActive)
  else if a.action = "clear_all_memory" then
    if a.needs_confirmation.getD false then
      ({ memory := m2, pending_action := some a }, HOutcome.pendingStored)
    else
      ({ memory := clear_all_memory m2, pending_action := pending },
        HOutcome.clearedAll)
  else if a.action = "set_reminder" then
    let rd := a.data.getD {}
    match rd.message, rd.suggested_time with
    | some msg, some t =>
      if t < now then
        let p : ActionData :=
          { action := "set_reminder", data := some rd,
            confirmation_message := some "past" }
        ({ memory := m2, pending_action := some p }, HOutcome.pendingStored)
      else if rd.needs_confirmation.getD false then
        let p : ActionData :=
          { action := "set_reminder", data := some rd,
            confirmation_message := some
              (rd.confirmation_message.getD ("Would you like me to set this reminder?")) }
        ({ memory := m2, pending_action := some p }, HOutcome.pendingStored)
      else
        match rd.dtype with
        | none =>
          ({ memory := m2, pending_action := pending }, HOutcome.exn)
        | some ty =>
          if ty = "event" then
            if m2.long_term.events.any (fun e =>
                pyLower e.description == pyLower msg && e.datetime == t) then
              ({ memory := m2, pending_action := pending }, HOutcome.dupPrompt)
            else
              let m3 := { m2 with long_term := { m2.long_term with
                events := m2.long_term.events ++
                  [{ description := msg, datetime := t, created_at := now }] } }
              ({ memory := clean_memory now m3, pending_action := pending },
                HOutcome.completed)
          else
            if m2.long_term.reminders.any (fun r =>
                pyLower r.message == pyLower msg && r.datetime == t) then
              ({ memory := m2, pending_action := pending }, HOutcome.dupPrompt)
            else
              let m3 := { m2 with long_term := { m2.long_term with
                reminders := m2.long_term.reminders ++
                  [{ message := msg, datetime := t, created_at := now,
                     status := RStatus.active }] } }
              ({ memory := clean_memory now m3, pending_action := pending },
                HOutcome.completed)
    | _, _ => ({ memory := m2, pending_action := pending }, HOutcome.aborted)
  else if a.action = "remember_fact" then
    match a.content, a.category with
    | some content, some category =>
      let c := pyStrip (pyLower content)
      if m2.long_term.facts.any (fun f => pyStrip (pyLower f.content) == c) then
        ({ memory := m2, pending_action := pending }, HOutcome.alreadyKnown)
      else
        let m3 := { m2 with long_term := { m2.long_term with
          facts := m2.long_term.facts ++
            [{ content := content, category := category, timestamp := now }] } }
        ({ memory := clean_memory now m3, pending_action := pending },
          HOutcome.completed)
    | _, _ => ({ memory := m2, pending_action := pending }, HOutcome.aborted)
  else if a.action = "query_memory" then
    match a.response with
    | some _ =>
      ({ memory := clean_memory now m2, pending_action := pending },
        HOutcome.completed)
    | none => ({ memory := m2, pending_action := pending }, HOutcome.aborted)
  else if a.action = "general_query" then
    match a.response with
    | some _ =>
      ({ memory := clean_memory now m2, pending_action := pending },
        HOutcome.completed)
    | none => ({ memory := m2, pending_action := pending }, HOutcome.aborted)
  else
    ({ memory := clean_memory now m2, pending_action := pending },
      HOutcome.completed)

/-- Source line 688: the conversation record appended unconditionally at the
top of `handle_action`. -/
def recordConversation (text : String) (act : String) (now : Int) (m : Memory) : Memory :=
  { m with long_term := { m.long_term with
      conversations := m.long_term.conversations ++
        [{ text := text, action := act, timestamp := now }] } }

def handle_action (a : ActionData) (text : String) (now : Int) (s : AppState) :
    AppState × HOutcome :=
  -- source lines 688 and 695
  let m2 := update_contextual_memory now (recordConversation text a.action now s.memory)
  -- source lines 705-756: the confirmation branch
  match s.pending_action with
  | some pa =>
    if containsYes text then
      if pa.action = "clear_reminders" then
        ({ memory := (clear_reminders now m2).1, pending_action := none },
          HOutcome.confirmBranch)
      else if pa.action = "clear_all_memory" then
        ({ memory := clear_all_memory m2, pending_action := none },
          HOutcome.confirmBranch)
      else if pa.action = "set_reminder" then
        match pa.data with
        | none => ({ memory := m2, pending_action := s.pending_action }, HOutcome.exn)
        | some rd =>
          match rd.dtype, rd.message, rd.suggested_time with
          | some ty, some msg, some t =>
            if ty = "event" then
              ({ memory := { m2 with long_term := { m2.long_term with
                   events := m2.long_term.events ++
                     [{ description := msg, datetime := t, created_at := now }] } },
                 pending_action := none }, HOutcome.confirmBranch)
            else
              ({ memory := { m2 with long_term := { m2.long_term with
                   reminders := m2.long_term.reminders ++
                     [{ message := msg, datetime := t, created_at := now,
                        status := RStatus.active }] } },
                 pending_action := none }, HOutcome.confirmBranch)
          | _, _, _ =>
            ({ memory := m2, pending_action := s.pending_action }, HOutcome.exn)
      else
        ({ memory := m2, pending_action := none }, HOutcome.confirmBranch)
    else
      handle_new_action a now m2 s.pending_action
  | none => handle_new_action a now m2 none

/-! ### One tick of `check_reminders` (source lines 971-1007) -/

/-- The transition applied to each reminder on a scheduler tick. -/
def tickReminder (now : Int) (r : Reminder) : Reminder :=
  if r.status = RStatus.active then
    if r.datetime < now then
      { r with status := RStatus.completed, completed_at := some now }
    else r
  else r

/-- One iteration of the `check_reminders` loop at time `now`: the updated
reminder list, and the reminders collected for a due-soon notification. -/
def check_reminders_tick (now : Int) (rs : List Reminder) :
    List Reminder × List Reminder :=
  (rs.map (tickReminder now),
   rs.filter (fun r =>
     decide (r.status = RStatus.active) &&
     !(decide (r.datetime < now)) &&
     decide (0 < r.datetime - now) && decide (r.datetime - now ≤ 300)))

/-! ### Concrete instances used in counterexamples and witnesses -/

def emptyLongTerm : LongTerm :=
  { facts := [], preferences := [], events := [], reminders := [], conversations := [] }

def emptyContextual : Contextual :=
  { recent_conversations := [], active_context := [], relevant_facts := [],
    upcoming_events := [], active_reminders := [] }

def emptyMemory : Memory := { long_term := emptyLongTerm, contextual := emptyContextual }

def S0 : AppState := { memory := emptyMemory, pending_action := none }

/-- A `clear_all_memory` intent flagged as needing confirmation. -/
def wipeIntent : ActionData := { action := "clear_all_memory", needs_confirmation := some true }

/-- A `clear_reminders` intent flagged as needing confirmation. -/
def clearRemIntent : ActionData := { action := "clear_reminders", needs_confirmation := some true }

/-- A harmless `general_query` intent accompanying a follow-up utterance. -/
def ackQuery : ActionData := { action := "general_query", response := some "ok" }

def rem1 : Reminder :=
  { message := "call mom", datetime := 5000, created_at := 0, status := RStatus.active }

def rem2 : Reminder :=
  { message := "buy milk", datetime := 6000, created_at := 0, status := RStatus.active }

def rem3 : Reminder :=
  { message := "water plants", datetime := 7000, created_at := 0, status := RStatus.active }

def prefsMemory : Memory :=
  { emptyMemory with long_term := { emptyLongTerm with preferences := [("drink", "tea")] } }

/-- Pending confirmed wipe over a store holding one preference. -/
def SC2 : AppState := { memory := prefsMemory, pending_action := some wipeIntent }

def threeRemMemory : Memory :=
  { emptyMemory with long_term := { emptyLongTerm with reminders := [rem1, rem2, rem3] } }

/-- Pending `clear_reminders` confirmation over three active reminders. -/
def S3 : AppState := { memory := threeRemMemory, pending_action := some clearRemIntent }

def dupReminderData : DataDict :=
  { message := some "call mom", suggested_time := some 5000, dtype := some "reminder" }

def pendingSetReminder : ActionData := { action := "set_reminder", data := some dupReminderData }

/-- Pending `set_reminder` duplicating the stored `rem1`. -/
def S4 : AppState :=
  { memory := { emptyMemory with long_term := { emptyLongTerm with reminders := [rem1] } },
    pending_action := some pendingSetReminder }

/-- Idle state over a store holding only `rem1`. -/
def S1R : AppState :=
  { memory := { emptyMemory with long_term := { emptyLongTerm with reminders := [rem1] } },
    pending_action := none }

/-- A `remember_fact` intent with `content`/`category` inside `data`, as the
source's own system prompt specifies the wire format. -/
def factIntent : ActionData :=
  { action := "remember_fact",
    data := some { content := some "I like tea", category := some "preference" } }

def oldActive : Reminder :=
  { message := "ancient", datetime := -100000000, created_at := -100000000,
    status := RStatus.active }

def oldCompleted : Reminder :=
  { message := "done long ago", datetime := -100000000, created_at := -100000000,
    status := RStatus.completed, completed_at := some (-100000000) }

def M6 : Memory :=
  { emptyMemory with long_term :=
      { emptyLongTerm with reminders := [oldActive, oldCompleted] } }

def dueNow : Reminder :=
  { message := "exact", datetime := 500, created_at := 0, status := RStatus.active }

def dueSoon : Reminder :=
  { message := "soon", datetime := 700, created_at := 0, status := RStatus.active }

def duePast : Reminder :=
  { message := "late", datetime := 400, created_at := 0, status := RStatus.active }

def pastEvent : Event := { description := "dentist", datetime := 96400, created_at := 0 }

def M8 : Memory :=
  { emptyMemory with long_term := { emptyLongTerm with events := [pastEvent] } }

/-- Pending confirmed wipe, used with an utterance containing "yes" only
inside the word "yesterday". -/
def SP : AppState := { memory := emptyMemory, pending_action := some wipeIntent }

/-! ### Helper lemmas -/

@[simp] theorem update_contextual_long_term (now : Int) (m : Memory) :
    (update_contextual_memory now m).long_term = m.long_term := rfl

@[simp] theorem recordConversation_reminders (text act : String) (now : Int) (m : Memory) :
    (recordConversation text act now m).long_term.reminders = m.long_term.reminders := rfl

@[simp] theorem recordConversation_facts (text act : String) (now : Int) (m : Memory) :
    (recordConversation text act now m).long_term.facts = m.long_term.facts := rfl

@[simp] theorem recordConversation_events (text act : String) (now : Int) (m : Memory) :
    (recordConversation text act now m).long_term.events = m.long_term.events := rfl

@[simp] theorem recordConversation_preferences (text act : String) (now : Int) (m : Memory) :
    (recordConversation text act now m).long_term.preferences = m.long_term.preferences := rfl

theorem recordConversation_conversations (text act : String) (now : Int) (m : Memory) :
    (recordConversation text act now m).long_term.conversations =
      m.long_term.conversations ++ [{ text := text, action := act, timestamp := now }] := rfl

theorem clean_memory_preferences (now : Int) (m : Memory) :
    (clean_memory now m).long_term.preferences = m.long_term.preferences := rfl

theorem fdiv_days_bound (x : Int) (h : Int.fdiv x 86400 < LONG_TERM_WINDOW_DAYS) :
    x < 365 * 86400 := by
  have h' : Int.fdiv x 86400 < 365 := h
  rw [Int.fdiv_eq_ediv _ (by norm_num)] at h'
  exact (Int.ediv_lt_iff_lt_mul (by norm_num)).mp h'

theorem dedupFactsAux_subset (l : List Fact) :
    ∀ seen f, f ∈ dedupFactsAux seen l → f ∈ l := by
  induction l with
  | nil => intro seen f h; simp [dedupFactsAux] at h
  | cons a rest ih =>
    intro seen f h
    rw [dedupFactsAux] at h
    by_cases hc : pyStrip (pyLower a.content) ∈ seen
    · simp only [if_pos hc] at h
      exact List.mem_cons_of_mem _ (ih _ _ h)
    · simp only [if_neg hc, List.mem_cons] at h
      rcases h with h | h
      · exact h ▸ List.mem_cons_self _ _
      · exact List.mem_cons_of_mem _ (ih _ _ h)

theorem clean_memory_reminders (now : Int) (m : Memory) :
    (clean_memory now m).long_term.reminders =
      m.long_term.reminders.filter (fun r =>
        decide (r.status = RStatus.active) ||
        (match r.completed_at with
         | some t => decide (Int.fdiv (now - t) 86400 < LONG_TERM_WINDOW_DAYS)
         | none => false)) := rfl

theorem clean_memory_events (now : Int) (m : Memory) :
    (clean_memory now m).long_term.events =
      m.long_term.events.filter (fun e =>
        decide (Int.fdiv (now - e.datetime) 86400 < LONG_TERM_WINDOW_DAYS)) := rfl

theorem clean_memory_facts (now : Int) (m : Memory) :
    (clean_memory now m).long_term.facts =
      dedupFactsAux [] (m.long_term.facts.filter (fun f =>
        decide (Int.fdiv (now - f.timestamp) 86400 < LONG_TERM_WINDOW_DAYS))) := rfl

theorem clean_memory_conversations (now : Int) (m : Memory) :
    (clean_memory now m).long_term.conversations =
      m.long_term.conversations.filter (fun c =>
        decide (Int.fdiv (now - c.timestamp) 86400 < LONG_TERM_WINDOW_DAYS)) := rfl

theorem active_mem_clean_memory (now : Int) (m : Memory) (r : Reminder)
    (hr : r ∈ m.long_term.reminders) (ha : r.status = RStatus.active) :
    r ∈ (clean_memory now m).long_term.reminders := by
  rw [clean_memory_reminders]
  exact List.mem_filter.mpr ⟨hr, by simp [ha]⟩

theorem handle_action_of_no_pending (a : ActionData) (text : String) (now : Int)
    (s : AppState) (hp : s.pending_action = none) :
    handle_action a text now s = handle_new_action a now
      (update_contextual_memory now (recordConversation text a.action now s.memory))
      none := by
  rw [handle_action, hp]

theorem handle_action_of_no_yes (a : ActionData) (text : String) (now : Int)
    (s : AppState) (pa : ActionData) (hp : s.pending_action = some pa)
    (hy : containsYes text = false) :
    handle_action a text now s = handle_new_action a now
      (update_contextual_memory now (recordConversation text a.action now s.memory))
      (some pa) := by
  rw [handle_action, hp]
  simp [hy]

theorem handle_action_confirm_clear_all (a : ActionData) (text : String) (now : Int)
    (s : AppState) (pa : ActionData) (hp : s.pending_action = some pa)
    (hpa : pa.action = "clear_all_memory") (hy : containsYes text = true) :
    handle_action a text now s =
      ({ memory := clear_all_memory (update_contextual_memory now
          (recordConversation text a.action now s.memory)), pending_action := none },
        HOutcome.confirmBranch) := by
  rw [handle_action, hp]
  simp [hy, hpa]

theorem handle_new_action_snd_ne_confirm (a : ActionData) (now : Int) (m : Memory)
    (p : Option ActionData) :
    (handle_new_action a now m p).2 ≠ HOutcome.confirmBranch := by
  rw [handle_new_action]
  dsimp only
  repeat' split
  all_goals simp

theorem handle_new_action_clear_all_conf (a : ActionData) (now : Int) (m : Memory)
    (p : Option ActionData) (ha : a.action = "clear_all_memory")
    (hc : a.needs_confirmation.getD false = true) :
    handle_new_action a now m p =
      ({ memory := m, pending_action := some a }, HOutcome.pendingStored) := by
  rw [handle_new_action]
  simp [ha, hc]

theorem handle_new_action_clear_rem_conf (a : ActionData) (now : Int) (m : Memory)
    (p : Option ActionData) (ha : a.action = "clear_reminders")
    (hact : m.long_term.reminders.any (fun r => decide (r.status = RStatus.active)) = true)
    (hc : a.needs_confirmation.getD false = true) :
    handle_new_action a now m p =
      ({ memory := m, pending_action := some a }, HOutcome.pendingStored) := by
  rw [handle_new_action]
  simp [ha, hact, hc]

theorem handle_new_action_clear_rem_none (a : ActionData) (now : Int) (m : Memory)
    (p : Option ActionData) (ha : a.action = "clear_reminders")
    (hact : m.long_term.reminders.any (fun r => decide (r.status = RStatus.active)) = false) :
    handle_new_action a now m p =
      ({ memory := m, pending_action := p }, HOutcome.noActive) := by
  rw [handle_new_action]
  simp [ha, hact]

theorem handle_new_action_general_query (a : ActionData) (now : Int) (m : Memory)
    (p : Option ActionData) (resp : String)
    (ha : a.action = "general_query") (hr : a.response = some resp) :
    handle_new_action a now m p =
      ({ memory := clean_memory now m, pending_action := p }, HOutcome.completed) := by
  rw [handle_new_action]
  simp [ha, hr]

theorem handle_new_action_set_reminder_dup (a : ActionData) (now : Int) (m : Memory)
    (p : Option ActionData) (rd : DataDict) (msg : String) (t : Int) (ty : String)
    (ha : a.action = "set_reminder") (hd : a.data = some rd)
    (hmsg : rd.message = some msg) (ht : rd.suggested_time = some t)
    (hnow : ¬ t < now) (hnc : rd.needs_confirmation.getD false = false)
    (hty : rd.dtype = some ty)
    (hdup : (ty = "event" ∧ m.long_term.events.any
        (fun e => pyLower e.description == pyLower msg && e.datetime == t) = true) ∨
      (¬ ty = "event" ∧ m.long_term.reminders.any
        (fun r => pyLower r.message == pyLower msg && r.datetime == t) = true)) :
    handle_new_action a now m p =
      ({ memory := m, pending_action := p }, HOutcome.dupPrompt) := by
  rw [handle_new_action]
  rcases hdup with ⟨hty2, hdup⟩ | ⟨hty2, hdup⟩
  · simp [ha, hd, hmsg, ht, hnow, hnc, hty, hty2, hdup]
  · simp [ha, hd, hmsg, ht, hnow, hnc, hty, hty2, hdup]

/-! ### Claim theorems -/

/-- C1 counterexample: the dispatch that stores the confirmation-gated
`clear_all_memory` intent (no pending action held, `needs_confirmation=true`)
already mutates the conversations collection of the MemoryStore, so the
dispatch is not mutation-free as claimed. -/
theorem gating_dispatch_mutates_conversations :
    S0.memory.long_term.conversations = [] ∧
    (handle_action wipeIntent ("please wipe everything") 1000 S0).2 =
      HOutcome.pendingStored ∧
    (handle_action wipeIntent ("please wipe everything")
      1000 S0).1.memory.long_term.conversations ≠ [] := by
  decide

/-- C1 (amended): dispatching a `clear_all_memory` or `clear_reminders` intent
with `needs_confirmation=true` while no pending action is held performs no
clear — the reminders, facts, events and preferences collections are
unchanged — but the dispatch itself appends the utterance record to the
conversations collection.  A `clear_all_memory` intent, and a
`clear_reminders` intent while at least one active reminder exists, is stored
verbatim as the pending action; a `clear_reminders` intent with no active
reminder yields the informative no-op and stores nothing.  And while any
pending action is held, a dispatch whose utterance lacks an affirmative token
never runs the confirmation branch. -/
theorem confirmation_gating_amended (a : ActionData) (text : String) (now : Int)
    (s : AppState) (hp : s.pending_action = none)
    (hc : a.needs_confirmation = some true)
    (ha : a.action = "clear_all_memory" ∨ a.action = "clear_reminders") :
    (((a.action = "clear_all_memory" ∨
        s.memory.long_term.reminders.any
          (fun r => decide (r.status = RStatus.active)) = true) →
      (handle_action a text now s).1.pending_action = some a ∧
      (handle_action a text now s).2 = HOutcome.pendingStored) ∧
     ((a.action = "clear_reminders" ∧
        s.memory.long_term.reminders.any
          (fun r => decide (r.status = RStatus.active)) = false) →
      (handle_action a text now s).1.pending_action = none ∧
      (handle_action a text now s).2 = HOutcome.noActive)) ∧
    ((handle_action a text now s).1.memory.long_term.reminders =
       s.memory.long_term.reminders ∧
     (handle_action a text now s).1.memory.long_term.facts =
       s.memory.long_term.facts ∧
     (handle_action a text now s).1.memory.long_term.events =
       s.memory.long_term.events ∧
     (handle_action a text now s).1.memory.long_term.preferences =
       s.memory.long_term.preferences ∧
     (handle_action a text now s).1.memory.long_term.conversations =
       s.memory.long_term.conversations ++
         [{ text := text, action := a.action, timestamp := now }]) ∧
    (∀ (a2 : ActionData) (t2 : String) (n2 : Int) (s2 : AppState),
      s2.pending_action = some a → containsYes t2 = false →
      (handle_action a2 t2 n2 s2).2 ≠ HOutcome.confirmBranch) := by
  rw [handle_action_of_no_pending a text now s hp]
  have hc' : a.needs_confirmation.getD false = true := by rw [hc]; rfl
  have hB : ∀ (a2 : ActionData) (t2 : String) (n2 : Int) (s2 : AppState),
      s2.pending_action = some a → containsYes t2 = false →
      (handle_action a2 t2 n2 s2).2 ≠ HOutcome.confirmBranch := by
    intro a2 t2 n2 s2 hp2 hy2
    rw [handle_action_of_no_yes a2 t2 n2 s2 a hp2 hy2]
    exact handle_new_action_snd_ne_confirm _ _ _ _
  rcases ha with ha | ha
  · rw [handle_new_action_clear_all_conf a now _ none ha hc']
    refine ⟨⟨fun _ => ⟨rfl, rfl⟩, ?_⟩,
      ⟨by simp, by simp, by simp, by simp, by simp [recordConversation_conversations]⟩, hB⟩
    intro hcr
    rw [ha] at hcr
    exact absurd hcr.1 (by decide)
  · by_cases hact : s.memory.long_term.reminders.any
        (fun r => decide (r.status = RStatus.active)) = true
    · rw [handle_new_action_clear_rem_conf a now _ none ha (by simpa using hact) hc']
      refine ⟨⟨fun _ => ⟨rfl, rfl⟩, ?_⟩,
        ⟨by simp, by simp, by simp, by simp, by simp [recordConversation_conversations]⟩, hB⟩
      intro hcr
      rw [hact] at hcr
      exact absurd hcr.2 (by decide)
    · rw [Bool.not_eq_true] at hact
      rw [handle_new_action_clear_rem_none a now _ none ha (by simpa using hact)]
      refine ⟨⟨?_, fun _ => ⟨rfl, rfl⟩⟩,
        ⟨by simp, by simp, by simp, by simp, by simp [recordConversation_conversations]⟩, hB⟩
      intro hcr
      rcases hcr with hcr | hcr
      · rw [ha] at hcr
        exact absurd hcr (by decide)
      · rw [hact] at hcr
        exact absurd hcr (by decide)

theorem confirmation_gating_amended_witness :
    ((handle_action wipeIntent ("wipe everything") 5 S0).1.pending_action =
        some wipeIntent ∧
      (handle_action wipeIntent ("wipe everything") 5 S0).2 =
        HOutcome.pendingStored) ∧
    ((handle_action clearRemIntent ("clear my reminders") 5 S0).1.pending_action =
        none ∧
      (handle_action clearRemIntent ("clear my reminders") 5 S0).2 =
        HOutcome.noActive) :=
  ⟨((confirmation_gating_amended wipeIntent ("wipe everything") 5 S0 rfl rfl
      (Or.inl rfl)).1).1 (Or.inl rfl),
   ((confirmation_gating_amended clearRemIntent ("clear my reminders") 5 S0 rfl rfl
      (Or.inr rfl)).1).2 ⟨rfl, by decide⟩⟩

/-- C2 counterexample: executing a confirmed `clear_all_memory` empties the
Preferences mapping as well, while the claim says Preferences stays
unchanged. -/
theorem clear_all_clears_preferences :
    SC2.memory.long_term.preferences = [("drink", "tea")] ∧
    (handle_action ackQuery ("yes please")
      1000 SC2).1.memory.long_term.preferences = [] := by
  decide

/-- C2 (amended): executing a confirmed `clear_all_memory` action empties all
five long-term collections — facts, events, reminders, conversations, and
also the Preferences mapping — and clears the pending action. -/
theorem clear_all_confirmed_amended (a : ActionData) (text : String) (now : Int)
    (s : AppState) (pa : ActionData) (hp : s.pending_action = some pa)
    (hpa : pa.action = "clear_all_memory") (hy : containsYes text = true) :
    (handle_action a text now s).1.memory.long_term =
      { facts := [], preferences := [], events := [], reminders := [],
        conversations := [] } ∧
    (handle_action a text now s).1.pending_action = none := by
  rw [handle_action_confirm_clear_all a text now s pa hp hpa hy]
  exact ⟨rfl, rfl⟩

theorem clear_all_confirmed_amended_witness :
    (handle_action ackQuery ("yes do it") 1000 SC2).1.memory.long_term =
      { facts := [], preferences := [], events := [], reminders := [],
        conversations := [] } :=
  (clear_all_confirmed_amended ackQuery ("yes do it") 1000 SC2 wipeIntent rfl rfl
    (by decide)).1

/-- C3 counterexample: with a pending `clear_reminders` held over 3 active
reminders, processing the follow-up "no thanks" (arriving as a
`general_query` intent) leaves the pending action still held, while the claim
says the pending action is discarded and none is held afterwards. -/
theorem negative_reply_keeps_pending :
    (handle_action ackQuery ("no thanks") 1000 S3).1.pending_action =
      some clearRemIntent ∧
    (handle_action ackQuery ("no thanks") 1000 S3).1.memory.long_term.reminders =
      [rem1, rem2, rem3] := by
  decide

/-- C3 (amended): with a pending action held, a follow-up utterance without an
affirmative token is handled as a new intent (here a `general_query`) and
every active reminder stays in the store, but the held PendingAction is not
discarded: it remains held until a later affirmative utterance or a new
confirmation-requiring intent replaces it. -/
theorem pending_survives_negative_reply (a : ActionData) (text : String)
    (now : Int) (s : AppState) (pa : ActionData) (resp : String)
    (hp : s.pending_action = some pa) (hy : containsYes text = false)
    (ha : a.action = "general_query") (hr : a.response = some resp) :
    (handle_action a text now s).1.pending_action = some pa ∧
    ∀ r ∈ s.memory.long_term.reminders, r.status = RStatus.active →
      r ∈ (handle_action a text now s).1.memory.long_term.reminders := by
  rw [handle_action_of_no_yes a text now s pa hp hy,
    handle_new_action_general_query a now _ (some pa) resp ha hr]
  refine ⟨rfl, ?_⟩
  intro r hr2 hact
  exact active_mem_clean_memory now _ r (by simpa using hr2) hact

theorem pending_survives_negative_reply_witness :
    (handle_action ackQuery ("no problem") 1000 S3).1.pending_action =
      some clearRemIntent ∧
    rem1 ∈ (handle_action ackQuery ("no problem")
      1000 S3).1.memory.long_term.reminders :=
  ⟨(pending_survives_negative_reply ackQuery ("no problem") 1000 S3 clearRemIntent
      "ok" rfl (by decide) rfl rfl).1,
   (pending_survives_negative_reply ackQuery ("no problem") 1000 S3 clearRemIntent
      "ok" rfl (by decide) rfl rfl).2 rem1 (by decide) (by decide)⟩

/-- C4 counterexample: a pending `set_reminder` whose message and time equal
the stored reminder `rem1`, confirmed with "yes", is inserted with no
duplicate check: afterwards the store holds two normalized-equal
(message, time) reminder entries. -/
theorem confirmation_path_inserts_duplicate :
    ((handle_action ackQuery ("yes") 1000 S4).1.memory.long_term.reminders.countP
      (fun r => pyLower r.message == pyLower ("call mom") && r.datetime == 5000)) =
      2 := by
  decide

/-- C4 (amended): the duplicate check holds for immediate (non-confirmation)
submissions only: an immediate `set_reminder` whose lowercased
message/description and time equal those of a stored entry yields the
ask-to-update prompt and inserts nothing; a submission executed via the
confirmation path is inserted without any duplicate check. -/
theorem set_reminder_immediate_dedup (a : ActionData) (text : String) (now : Int)
    (s : AppState) (rd : DataDict) (msg : String) (t : Int) (ty : String)
    (hp : s.pending_action = none)
    (ha : a.action = "set_reminder") (hd : a.data = some rd)
    (hmsg : rd.message = some msg) (ht : rd.suggested_time = some t)
    (hnow : ¬ t < now) (hnc : rd.needs_confirmation.getD false = false)
    (hty : rd.dtype = some ty)
    (hdup : (ty = "event" ∧ s.memory.long_term.events.any
        (fun e => pyLower e.description == pyLower msg && e.datetime == t) = true) ∨
      (¬ ty = "event" ∧ s.memory.long_term.reminders.any
        (fun r => pyLower r.message == pyLower msg && r.datetime == t) = true)) :
    (handle_action a text now s).2 = HOutcome.dupPrompt ∧
    (handle_action a text now s).1.memory.long_term.reminders =
      s.memory.long_term.reminders ∧
    (handle_action a text now s).1.memory.long_term.events =
      s.memory.long_term.events := by
  rw [handle_action_of_no_pending a text now s hp]
  have hdup2 : (ty = "event" ∧
      (update_contextual_memory now (recordConversation text a.action now
        s.memory)).long_term.events.any
        (fun e => pyLower e.description == pyLower msg && e.datetime == t) = true) ∨
      (¬ ty = "event" ∧
      (update_contextual_memory now (recordConversation text a.action now
        s.memory)).long_term.reminders.any
        (fun r => pyLower r.message == pyLower msg && r.datetime == t) = true) := by
    rcases hdup with ⟨h1, h2⟩ | ⟨h1, h2⟩
    · exact Or.inl ⟨h1, by simpa using h2⟩
    · exact Or.inr ⟨h1, by simpa using h2⟩
  rw [handle_new_action_set_reminder_dup a now _ none rd msg t ty ha hd hmsg ht
    hnow hnc hty hdup2]
  exact ⟨rfl, by simp, by simp⟩

theorem set_reminder_immediate_dedup_witness :
    (handle_action pendingSetReminder ("remind me to call mom") 1000 S1R).2 =
      HOutcome.dupPrompt ∧
    (handle_action pendingSetReminder ("remind me to call mom")
      1000 S1R).1.memory.long_term.reminders = S1R.memory.long_term.reminders :=
  ⟨(set_reminder_immediate_dedup pendingSetReminder ("remind me to call mom")
      1000 S1R dupReminderData "call mom" 5000 "reminder" rfl rfl rfl rfl rfl
      (by decide) (by decide) rfl (Or.inr ⟨by decide, by decide⟩)).1,
   (set_reminder_immediate_dedup pendingSetReminder ("remind me to call mom")
      1000 S1R dupReminderData "call mom" 5000 "reminder" rfl rfl rfl rfl rfl
      (by decide) (by decide) rfl (Or.inr ⟨by decide, by decide⟩)).2.1⟩

/-- C5: a `remember_fact` intent carrying `content` and `category` inside its
`data` object — the wire format the source's own system prompt and user prompt
prescribe — is rejected as invalid by `handle_action`, which looks the two
fields up at the top level of the action object instead: no Fact is inserted
and the action aborts. -/
theorem remember_fact_data_fields_rejected :
    (handle_action factIntent ("remember that i like tea") 1000 S0).2 =
      HOutcome.aborted ∧
    (handle_action factIntent ("remember that i like tea")
      1000 S0).1.memory.long_term.facts = [] := by
  decide

/-- C10: while a pending action is held (of any kind the dispatcher actually
stores: `clear_reminders`, `clear_all_memory`, or a fully-populated
`set_reminder`), an incoming utterance runs the confirmation branch — which
executes and clears the pending action — exactly when its lowercased text
contains the substring "yes" anywhere, including inside a longer word such as
"yesterday". -/
theorem confirm_iff_yes_substring (a : ActionData) (text : String) (now : Int)
    (s : AppState) (pa : ActionData) (hp : s.pending_action = some pa)
    (hw : pa.action = "clear_reminders" ∨ pa.action = "clear_all_memory" ∨
      (pa.action = "set_reminder" ∧ ∃ rd ty msg t, pa.data = some rd ∧
        rd.dtype = some ty ∧ rd.message = some msg ∧ rd.suggested_time = some t)) :
    (handle_action a text now s).2 = HOutcome.confirmBranch ↔
      containsYes text = true := by
  constructor
  · intro h
    by_contra hy
    rw [Bool.not_eq_true] at hy
    rw [handle_action] at h
    simp only [hp, hy] at h
    exact handle_new_action_snd_ne_confirm _ _ _ _ h
  · intro hy
    rw [handle_action]
    simp only [hp, hy]
    rcases hw with hpa | hpa | ⟨hpa, rd, ty, msg, t, hd, hty, hmsg, ht⟩
    · simp [hpa]
    · simp [hpa]
    · by_cases hty2 : ty = "event"
      · simp [hpa, hd, hty, hmsg, ht, hty2]
      · simp [hpa, hd, hty, hmsg, ht, hty2]

theorem confirm_iff_yes_substring_witness :
    containsYes ("tell me about yesterday") = true ∧
    (handle_action ackQuery ("tell me about yesterday") 1000 SP).2 =
      HOutcome.confirmBranch :=
  ⟨by decide,
   (confirm_iff_yes_substring ackQuery ("tell me about yesterday") 1000 SP
      wipeIntent rfl (Or.inr (Or.inl rfl))).mpr (by decide)⟩

/-- C6: after every sweeper pass (`clean_memory` at time `now`), no completed
reminder whose `completed_at` lies more than 365 days in the past remains, no
event whose time lies more than 365 days in the past remains, no fact or
conversation whose timestamp lies more than 365 days in the past remains, and
every active reminder of the input store is retained regardless of its age. -/
theorem retention_invariant (now : Int) (m : Memory) :
    (∀ r ∈ (clean_memory now m).long_term.reminders,
      r.status = RStatus.completed → ∀ t, r.completed_at = some t →
        ¬ (now - t > 365 * 86400)) ∧
    (∀ e ∈ (clean_memory now m).long_term.events,
      ¬ (now - e.datetime > 365 * 86400)) ∧
    (∀ f ∈ (clean_memory now m).long_term.facts,
      ¬ (now - f.timestamp > 365 * 86400)) ∧
    (∀ c ∈ (clean_memory now m).long_term.conversations,
      ¬ (now - c.timestamp > 365 * 86400)) ∧
    (∀ r ∈ m.long_term.reminders, r.status = RStatus.active →
      r ∈ (clean_memory now m).long_term.reminders) := by
  refine ⟨?_, ?_, ?_, ?_, fun r hr ha => active_mem_clean_memory now m r hr ha⟩
  · intro r hr hstat t hct
    rw [clean_memory_reminders, List.mem_filter] at hr
    obtain ⟨-, hp⟩ := hr
    rw [hstat, hct] at hp
    simp only [decide_eq_true_eq, Bool.or_eq_true] at hp
    rcases hp with hp | hp
    · exact absurd hp (by simp)
    · have := fdiv_days_bound _ hp
      omega
  · intro e he
    rw [clean_memory_events, List.mem_filter] at he
    obtain ⟨-, hp⟩ := he
    simp only [decide_eq_true_eq] at hp
    have := fdiv_days_bound _ hp
    omega
  · intro f hf
    rw [clean_memory_facts] at hf
    have hf' := dedupFactsAux_subset _ _ _ hf
    rw [List.mem_filter] at hf'
    obtain ⟨-, hp⟩ := hf'
    simp only [decide_eq_true_eq] at hp
    have := fdiv_days_bound _ hp
    omega
  · intro c hc
    rw [clean_memory_conversations, List.mem_filter] at hc
    obtain ⟨-, hp⟩ := hc
    simp only [decide_eq_true_eq] at hp
    have := fdiv_days_bound _ hp
    omega

theorem retention_invariant_witness :
    oldActive ∈ M6.long_term.reminders ∧ oldActive.status = RStatus.active ∧
    oldActive ∈ (clean_memory 100000000 M6).long_term.reminders :=
  ⟨by decide, by decide,
    (retention_invariant 100000000 M6).2.2.2.2 oldActive (by decide) (by decide)⟩

/-- C7 counterexample: a reminder whose due time equals the tick time is not
transitioned to completed — the scheduler compares with strict `<`, so a
reminder with `due = now` stays active on that tick (the claim says every
active reminder with `due ≤ now` is completed). -/
theorem scheduler_due_at_now_stays_active :
    dueNow.datetime = 500 ∧ dueNow.status = RStatus.active ∧
    (check_reminders_tick 500 [dueNow]).1 = [dueNow] ∧
    (check_reminders_tick 500 [dueNow]).2 = [] := by decide

/-- C7 (amended): on every scheduler tick at `now`, every active reminder due
strictly before `now` is transitioned to completed with `completed_at = now`
and receives no notification; the notified reminders are exactly the active
ones with `0 < due - now ≤ 300`, and those stay active. -/
theorem scheduler_tick_amended (now : Int) (rs : List Reminder) :
    (∀ r ∈ rs, r.status = RStatus.active → r.datetime < now →
      ({ r with status := RStatus.completed, completed_at := some now } : Reminder)
        ∈ (check_reminders_tick now rs).1 ∧ r ∉ (check_reminders_tick now rs).2) ∧
    (∀ r ∈ (check_reminders_tick now rs).2,
      r.status = RStatus.active ∧ 0 < r.datetime - now ∧ r.datetime - now ≤ 300) ∧
    (∀ r ∈ rs, r.status = RStatus.active → 0 < r.datetime - now →
      r.datetime - now ≤ 300 →
      r ∈ (check_reminders_tick now rs).2 ∧ r ∈ (check_reminders_tick now rs).1) := by
  refine ⟨?_, ?_, ?_⟩
  · intro r hr ha hlt
    constructor
    · have h : tickReminder now r =
          { r with status := RStatus.completed, completed_at := some now } := by
        simp [tickReminder, ha, hlt]
      exact h ▸ List.mem_map_of_mem (tickReminder now) hr
    · intro hmem
      rw [check_reminders_tick] at hmem
      simp only [List.mem_filter, Bool.and_eq_true, Bool.not_eq_true',
        decide_eq_true_eq, decide_eq_false_iff_not] at hmem
      obtain ⟨-, ⟨⟨-, -⟩, h1⟩, -⟩ := hmem
      omega
  · intro r hmem
    rw [check_reminders_tick] at hmem
    simp only [List.mem_filter, Bool.and_eq_true, Bool.not_eq_true',
      decide_eq_true_eq, decide_eq_false_iff_not] at hmem
    obtain ⟨-, ⟨⟨hs, -⟩, h1⟩, h2⟩ := hmem
    exact ⟨hs, h1, h2⟩
  · intro r hr ha h1 h2
    have hnlt : ¬ r.datetime < now := by omega
    constructor
    · rw [check_reminders_tick]
      exact List.mem_filter.mpr ⟨hr, by simp [ha, hnlt, h1, h2]⟩
    · have h : tickReminder now r = r := by simp [tickReminder, ha, hnlt]
      exact h ▸ List.mem_map_of_mem (tickReminder now) hr

theorem scheduler_tick_amended_witness :
    ({ duePast with status := RStatus.completed, completed_at := some 500 } : Reminder)
      ∈ (check_reminders_tick 500 [duePast, dueSoon]).1 ∧
    dueSoon ∈ (check_reminders_tick 500 [duePast, dueSoon]).2 :=
  ⟨((scheduler_tick_amended 500 [duePast, dueSoon]).1 duePast (by decide)
      (by decide) (by decide)).1,
    ((scheduler_tick_amended 500 [duePast, dueSoon]).2.2 dueSoon (by decide)
      (by decide) (by decide) (by decide)).1⟩

/-- C8: the `upcoming_events` filter of `update_contextual_memory` has no
lower bound, so an event whose `occurs_at` lies one hour in the past appears
in the recomputed `upcoming_events` projection, contradicting the claim that
only events within the 24 hours after `now` appear. -/
theorem upcoming_events_contains_past_event :
    pastEvent ∈ (update_contextual_memory 100000 M8).contextual.upcoming_events ∧
    pastEvent.datetime < 100000 := by decide

/-- C9: recomputing the contextual view twice at the same instant with no
intervening long-term mutation yields the same state as recomputing it once —
the recomputation is a pure function of the long-term collections and `now`. -/
theorem contextual_update_idempotent (now : Int) (m : Memory) :
    update_contextual_memory now (update_contextual_memory now m) =
      update_contextual_memory now m := rfl

end VoiceAssistant
